import Mathlib

/-!
Verification of the real-estate data-access layer (`utils.py`).

The development shallowly embeds the typed data model of the spec
(records with optional fields, absence defaulting per the source) and the
query operations of `RealEstateDataManager`, then settles the frozen
claims as theorems about those definitions.

Conventions of the embedding:
* Python `None`-able values are `Option` values; `record.get(key, default)`
  becomes `field.getD default`.
* Python numbers are rationals; the value `float("inf")` used as a
  `dict.get` default in `_matches_filter` is the `inf` constructor of
  `PyNum`.
* operations that can raise a Python `AttributeError` (calling `.lower()`
  on `None`) return `Except PyError`; all other operations are total.
* record types carry the fields that the embedded operations consult.
-/

namespace RealEstate

/-- Dynamic JSON values, for the parts of the documents that the code
treats generically (the `area_performance` mapping values and the
amenity-type entries looked up by `get_amenities_by_type`). -/
inductive JVal where
  | jnull : JVal
  | jbool : Bool → JVal
  | jnum : ℚ → JVal
  | jstr : String → JVal
  | jarr : List JVal → JVal
  | jobj : List (String × JVal) → JVal

/-- Python runtime errors the embedded operations can raise: calling
`.lower()` on `None` raises `AttributeError`. -/
inductive PyError where
  | attributeError
deriving DecidableEq

/-- A Python number as compared inside `_matches_filter`: either a finite
value or the `float("inf")` default used for absent fields. -/
inductive PyNum where
  | fin : ℚ → PyNum
  | inf : PyNum

/-- Strict `<` on `PyNum`: the bounds in filters are always finite, so
`inf` exceeds every bound. -/
def PyNum.ltb : PyNum → PyNum → Bool
  | .fin a, .fin b => decide (a < b)
  | .fin _, .inf => true
  | .inf, _ => false

/-- Strict `>` on `PyNum`, as in `prop.get(key, inf) > bound`. -/
def PyNum.gtb (a b : PyNum) : Bool := PyNum.ltb b a

/-- `record.get(key, default)` for a numeric field where the default may
be `float("inf")`: present values are finite. -/
def getNum (v : Option ℚ) (d : PyNum) : PyNum :=
  match v with
  | some q => .fin q
  | none => d

/-- Python truthiness of an optional number: `None`, `0` and `0.0` are
falsy, every other number is truthy. -/
def truthyNum (v : Option ℚ) : Bool :=
  match v with
  | none => false
  | some q => decide (q ≠ 0)

/-- Python truthiness of an optional list: `None` and `[]` are falsy. -/
def truthyList {α : Type} (v : Option (List α)) : Bool :=
  match v with
  | none => false
  | some l => !l.isEmpty

/-- Python truthiness of an optional string: `None` and the empty string
are falsy. -/
def truthyStr (v : Option String) : Bool :=
  match v with
  | none => false
  | some s => decide (s ≠ "")

/-- Python membership `x in l` where `x` may be `None`; the lists tested
against contain only strings, so `None` is never a member. -/
def optMem (x : Option String) (l : List String) : Bool :=
  match x with
  | none => false
  | some s => l.contains s

/-- A property record from `active_listings`; every field is optional. -/
structure Property where
  id : Option String := none
  price : Option ℚ := none
  bedrooms : Option ℚ := none
  bathrooms : Option ℚ := none
  area : Option String := none
  property_type : Option String := none
  square_feet : Option ℚ := none
  features : Option (List String) := none
  address : Option String := none
  description : Option String := none
  style : Option String := none
  agent_id : Option String := none
deriving DecidableEq

/-- The `PropertyFilter` dataclass: every criterion defaults to `None`. -/
structure PropertyFilter where
  min_price : Option ℚ := none
  max_price : Option ℚ := none
  min_bedrooms : Option ℚ := none
  max_bedrooms : Option ℚ := none
  min_bathrooms : Option ℚ := none
  max_bathrooms : Option ℚ := none
  areas : Option (List String) := none
  property_types : Option (List String) := none
  min_sqft : Option ℚ := none
  max_sqft : Option ℚ := none
  features : Option (List String) := none
deriving DecidableEq

/-- An agent record from `agent_profiles`. -/
structure Agent where
  id : Option String := none
  name : Option String := none
deriving DecidableEq

/-- The `budget_range` sub-record of client preferences. -/
structure BudgetRange where
  min : Option ℚ := none
  max : Option ℚ := none
deriving DecidableEq

/-- The `preferences` sub-record of a client. -/
structure Preferences where
  budget_range : Option BudgetRange := none
  desired_areas : Option (List String) := none
  property_type : Option String := none
deriving DecidableEq

/-- A client record from `client_database`. -/
structure Client where
  id : Option String := none
  type : Option String := none
  agent_id : Option String := none
  preferences : Option Preferences := none
deriving DecidableEq

/-- A sale record from `recent_sales`. -/
structure Sale where
  sale_price : Option ℚ := none
  days_on_market : Option ℚ := none
  price_per_sqft : Option ℚ := none
  area : Option String := none
  agent_id : Option String := none
deriving DecidableEq

/-- An area record from the `areas` list of `city_overview`. -/
structure Area where
  name : Option String := none
deriving DecidableEq

/-- A school record inside the `schools` mapping of the amenities
document. -/
structure School where
  name : Option String := none
deriving DecidableEq

/-- A park record inside `parks_and_recreation.parks`. -/
structure Park where
  name : Option String := none
  area : Option String := none
deriving DecidableEq

/-- A shop record inside a `shopping` bucket. -/
structure Shop where
  name : Option String := none
  area : Option String := none
deriving DecidableEq

/-- The `schools` mapping of the amenities document: the four buckets the
code reads, each optional. -/
structure Schools where
  elementary_schools : Option (List School) := none
  middle_schools : Option (List School) := none
  high_schools : Option (List School) := none
  private_schools : Option (List School) := none
deriving DecidableEq

/-- The `parks_and_recreation` sub-document. -/
structure ParksRec where
  parks : Option (List Park) := none
deriving DecidableEq

/-- A value of the `shopping` mapping: a sequence of shops, or any other
JSON value, which the `isinstance(shops, list)` test in
`get_area_amenities` silently skips. -/
inductive ShopsVal where
  | seq : List Shop → ShopsVal
  | nonseq : JVal → ShopsVal

/-- The amenities document: the three keys the code reads structurally,
plus the arbitrary other amenity-type keys (as raw JSON), which only
`get_amenities_by_type` reaches. -/
structure Amenities where
  schools : Option Schools := none
  parks_and_recreation : Option ParksRec := none
  shopping : Option (List (String × ShopsVal)) := none
  extra : List (String × JVal) := []

/-- The in-memory store after `_load_all_data`: one entry per document,
already projected through the fixed root keys (a missing document loads
as an empty mapping, hence an empty list / empty structure here). -/
structure Store where
  active_listings : List Property := []
  agents : List Agent := []
  area_performance : List (String × JVal) := []
  clients : List Client := []
  amenities : Amenities := {}
  recent_sales : List Sale := []
  areas : List Area := []

/-- `get_all_properties`: the `active_listings` sequence. -/
def get_all_properties (st : Store) : List Property :=
  st.active_listings

/-- The lookup loop of `get_property_by_id`: first record whose `id`
equals the argument. -/
def propLoop (property_id : String) : List Property → Option Property
  | [] => none
  | prop :: rest =>
      if prop.id == some property_id then some prop
      else propLoop property_id rest

/-- `get_property_by_id`. -/
def get_property_by_id (st : Store) (property_id : String) : Option Property :=
  propLoop property_id (get_all_properties st)

/-- The failing min-bound test of `_matches_filter`:
`filters.min_x and prop.get(x, 0) < filters.min_x`. -/
def minCheckFails (filterVal : Option ℚ) (propVal : Option ℚ) : Bool :=
  truthyNum filterVal &&
    (getNum propVal (.fin 0)).ltb (.fin (filterVal.getD 0))

/-- The failing max-bound test of `_matches_filter`:
`filters.max_x and prop.get(x, float("inf")) > filters.max_x`. -/
def maxCheckFails (filterVal : Option ℚ) (propVal : Option ℚ) : Bool :=
  truthyNum filterVal &&
    (getNum propVal .inf).gtb (.fin (filterVal.getD 0))

/-- The failing areas test: `filters.areas and prop.get("area") not in
filters.areas`. -/
def areasCheckFails (filters : PropertyFilter) (prop : Property) : Bool :=
  truthyList filters.areas && !(optMem prop.area (filters.areas.getD []))

/-- The failing property-types test. -/
def typesCheckFails (filters : PropertyFilter) (prop : Property) : Bool :=
  truthyList filters.property_types &&
    !(optMem prop.property_type (filters.property_types.getD []))

/-- The failing features test: some required feature has no
case-insensitive substring match among the property features. -/
def featuresCheckFails (filters : PropertyFilter) (prop : Property) : Bool :=
  truthyList filters.features &&
    !((filters.features.getD []).all fun required_feature =>
        (prop.features.getD []).any fun feature =>
          decide (List.IsInfix (required_feature.toLower).toList (feature.toLower).toList))

/-- `_matches_filter`: the early-return chain of the source, one test per
criterion, in source order. -/
def matches_filter (prop : Property) (filters : PropertyFilter) : Bool :=
  if minCheckFails filters.min_price prop.price then false
  else if maxCheckFails filters.max_price prop.price then false
  else if minCheckFails filters.min_bedrooms prop.bedrooms then false
  else if maxCheckFails filters.max_bedrooms prop.bedrooms then false
  else if minCheckFails filters.min_bathrooms prop.bathrooms then false
  else if maxCheckFails filters.max_bathrooms prop.bathrooms then false
  else if areasCheckFails filters prop then false
  else if typesCheckFails filters prop then false
  else if minCheckFails filters.min_sqft prop.square_feet then false
  else if maxCheckFails filters.max_sqft prop.square_feet then false
  else if featuresCheckFails filters prop then false
  else true

/-- `filter_properties`: keep, in order, the properties that match. -/
def filter_properties (st : Store) (filters : PropertyFilter) : List Property :=
  (get_all_properties st).filter fun prop => matches_filter prop filters

/-- `get_all_agents`. -/
def get_all_agents (st : Store) : List Agent :=
  st.agents

/-- The lookup loop of `get_agent_by_id`. The argument may be `None`
when the call comes from `get_property_insights` on a property with no
`agent_id`; the `==` test is then `agent.get("id") == None`, which is
true exactly for agents lacking an `id`. -/
def agentLoop (agent_id : Option String) : List Agent → Option Agent
  | [] => none
  | agent :: rest =>
      if agent.id == agent_id then some agent
      else agentLoop agent_id rest

/-- `get_agent_by_id`. -/
def get_agent_by_id (st : Store) (agent_id : Option String) : Option Agent :=
  agentLoop agent_id (get_all_agents st)

/-- `get_all_clients`. -/
def get_all_clients (st : Store) : List Client :=
  st.clients

/-- The lookup loop of `get_client_by_id`. -/
def clientLoop (client_id : String) : List Client → Option Client
  | [] => none
  | client :: rest =>
      if client.id == some client_id then some client
      else clientLoop client_id rest

/-- `get_client_by_id`. -/
def get_client_by_id (st : Store) (client_id : String) : Option Client :=
  clientLoop client_id (get_all_clients st)

/-- `get_all_areas`. -/
def get_all_areas (st : Store) : List Area :=
  st.areas

/-- The lookup loop of `get_area_info`. Each iteration evaluates
`area.get("name", "").lower() == area_name.lower()`; with `area_name =
None` the right-hand `.lower()` raises `AttributeError`, so a nonempty
areas list and a `None` argument produce an error. -/
def areaLoop (area_name : Option String) : List Area → Except PyError (Option Area)
  | [] => .ok none
  | area :: rest =>
      match area_name with
      | none => .error .attributeError
      | some q =>
          if (area.name.getD "").toLower == q.toLower then .ok (some area)
          else areaLoop (some q) rest

/-- `get_area_info`. -/
def get_area_info (st : Store) (area_name : Option String) :
    Except PyError (Option Area) :=
  areaLoop area_name (get_all_areas st)

/-- `get_area_market_data`: `area_performance.get(area)`. The mapping has
string keys, so a `None` argument finds nothing and yields the `None`
default without error. -/
def get_area_market_data (st : Store) (area : Option String) : Option JVal :=
  match area with
  | none => none
  | some a => (st.area_performance.find? fun e => e.1 == a).map fun e => e.2

/-- `get_recent_sales`. -/
def get_recent_sales (st : Store) : List Sale :=
  st.recent_sales

/-- A Python list comprehension `[x for x in xs if x.get("area",
"").lower() == area.lower()]`: on a nonempty list with `area = None` the
first evaluation of the condition raises `AttributeError`. -/
def pyFilterByArea {α : Type} (getA : α → Option String) (area : Option String) :
    List α → Except PyError (List α)
  | [] => .ok []
  | x :: rest =>
      match area with
      | none => .error .attributeError
      | some a => do
          let tail ← pyFilterByArea getA (some a) rest
          if ((getA x).getD "").toLower == a.toLower then
            return x :: tail
          else
            return tail

/-- `get_sales_by_area`. -/
def get_sales_by_area (st : Store) (area : Option String) :
    Except PyError (List Sale) :=
  pyFilterByArea Sale.area area (get_recent_sales st)

/-- The bucket lookup `schools_data.get(school_type, [])` for the four
fixed keys iterated by `get_schools_by_area`. -/
def schoolsGet (s : Schools) (school_type : String) : List School :=
  if school_type == "elementary_schools" then s.elementary_schools.getD []
  else if school_type == "middle_schools" then s.middle_schools.getD []
  else if school_type == "high_schools" then s.high_schools.getD []
  else if school_type == "private_schools" then s.private_schools.getD []
  else []

/-- `get_schools_by_area`: extends an accumulator with the four fixed
buckets, never consulting the `area` argument. -/
def get_schools_by_area (st : Store) (area : Option String) : List School :=
  let _ := area
  let schools_data := st.amenities.schools.getD {}
  ["elementary_schools", "middle_schools", "high_schools", "private_schools"].foldl
    (fun all_schools school_type => all_schools ++ schoolsGet schools_data school_type)
    []

/-- The result record built by `get_area_amenities`. -/
structure AreaAmenities where
  schools : List School
  parks : List Park
  shopping : List (String × List Shop)
deriving DecidableEq

/-- The `shopping` loop of `get_area_amenities`: sub-types whose value is
a sequence are filtered by area, other values are silently skipped. -/
def shoppingFilter (area : Option String) :
    List (String × ShopsVal) → Except PyError (List (String × List Shop))
  | [] => .ok []
  | (shop_type, v) :: rest =>
      match v with
      | .nonseq _ => shoppingFilter area rest
      | .seq shops => do
          let filtered ← pyFilterByArea Shop.area area shops
          let tail ← shoppingFilter area rest
          return (shop_type, filtered) :: tail

/-- `get_area_amenities`: schools (unfiltered), parks filtered by area,
shopping buckets filtered by area. -/
def get_area_amenities (st : Store) (area : Option String) :
    Except PyError AreaAmenities := do
  let schools := get_schools_by_area st area
  let parks ← pyFilterByArea Park.area area
    ((st.amenities.parks_and_recreation.getD {}).parks.getD [])
  let area_shopping ← shoppingFilter area (st.amenities.shopping.getD [])
  return { schools := schools, parks := parks, shopping := area_shopping }

/-- The result record built by `get_property_insights` (absent when the
property is not found, mirroring the `{}` return). -/
structure PropertyInsights where
  property : Property
  agent : Option Agent
  area_info : Option Area
  area_market_data : Option JVal
  comparable_sales : List Sale
  area_amenities : AreaAmenities

/-- `get_property_insights`: looks up the property, then builds the
result record, evaluating the components in source order; the area taken
from the property may be `None` and is passed to the area-keyed
helpers. -/
def get_property_insights (st : Store) (property_id : String) :
    Except PyError (Option PropertyInsights) :=
  match get_property_by_id st property_id with
  | none => .ok none
  | some prop => do
      let area := prop.area
      let agent := get_agent_by_id st prop.agent_id
      let area_info ← get_area_info st area
      let area_market_data := get_area_market_data st area
      let comparable_sales ← get_sales_by_area st area
      let area_amenities ← get_area_amenities st area
      return some {
        property := prop
        agent := agent
        area_info := area_info
        area_market_data := area_market_data
        comparable_sales := comparable_sales
        area_amenities := area_amenities }

/-- The result record built by `calculate_market_trends` (absent when no
sales are selected, mirroring the `{}` return). -/
structure MarketTrends where
  total_sales : ℕ
  average_sale_price : ℚ
  average_days_on_market : ℚ
  average_price_per_sqft : ℚ
  area : String
deriving DecidableEq

/-- The selection `self.get_sales_by_area(area) if area else
self.get_recent_sales()`: Python truthiness, so `None` and the empty
string both select all recent sales. -/
def selected_sales (st : Store) (area : Option String) :
    Except PyError (List Sale) :=
  if truthyStr area then get_sales_by_area st area
  else .ok (get_recent_sales st)

/-- `area or "All Areas"`: the area when truthy, else the sentinel. -/
def areaOrAll (area : Option String) : String :=
  if truthyStr area then area.getD "" else "All Areas"

/-- `calculate_market_trends`: empty selection returns the empty result
before any average is computed; otherwise three arithmetic means over the
selected sales. -/
def calculate_market_trends (st : Store) (area : Option String) :
    Except PyError (Option MarketTrends) := do
  let sales ← selected_sales st area
  if sales.isEmpty then
    return none
  else
    let total_sales := sales.length
    return some {
      total_sales := total_sales
      average_sale_price :=
        (sales.map fun sale => sale.sale_price.getD 0).sum / (total_sales : ℚ)
      average_days_on_market :=
        (sales.map fun sale => sale.days_on_market.getD 0).sum / (total_sales : ℚ)
      average_price_per_sqft :=
        (sales.map fun sale => sale.price_per_sqft.getD 0).sum / (total_sales : ℚ)
      area := areaOrAll area }

/-- `match_clients_to_properties`: a missing client or a client whose
`type` is not `"Buyer"` short-circuits to the empty list (in Python the
guard is `not client or client.get("type") != "Buyer"`; a falsy, i.e.
empty, client record also has no `type` key, so the `type` test alone
decides); otherwise a `PropertyFilter` is built from the preferences and
run. -/
def match_clients_to_properties (st : Store) (client_id : String) :
    List Property :=
  match get_client_by_id st client_id with
  | none => []
  | some client =>
      if client.type ≠ some "Buyer" then []
      else
        let preferences := client.preferences.getD {}
        let budget := preferences.budget_range.getD {}
        filter_properties st {
          min_price := budget.min
          max_price := budget.max
          areas := preferences.desired_areas
          property_types :=
            if truthyStr preferences.property_type then
              some [preferences.property_type.getD ""]
            else none }

/-- The encoding of a present optional field of a record, as one entry of
the record viewed as a JSON object. -/
def optField (k : String) (v : Option JVal) : List (String × JVal) :=
  match v with
  | none => []
  | some j => [(k, j)]

/-- A school record as a JSON value. -/
def School.toJVal (s : School) : JVal :=
  .jobj (optField "name" (s.name.map .jstr))

/-- A park record as a JSON value. -/
def Park.toJVal (p : Park) : JVal :=
  .jobj (optField "name" (p.name.map .jstr) ++ optField "area" (p.area.map .jstr))

/-- A shop record as a JSON value. -/
def Shop.toJVal (s : Shop) : JVal :=
  .jobj (optField "name" (s.name.map .jstr) ++ optField "area" (s.area.map .jstr))

/-- The `schools` mapping as a JSON value. -/
def Schools.toJVal (s : Schools) : JVal :=
  .jobj
    (optField "elementary_schools"
        (s.elementary_schools.map fun l => .jarr (l.map School.toJVal)) ++
      optField "middle_schools"
        (s.middle_schools.map fun l => .jarr (l.map School.toJVal)) ++
      optField "high_schools"
        (s.high_schools.map fun l => .jarr (l.map School.toJVal)) ++
      optField "private_schools"
        (s.private_schools.map fun l => .jarr (l.map School.toJVal)))

/-- The `parks_and_recreation` sub-document as a JSON value. -/
def ParksRec.toJVal (p : ParksRec) : JVal :=
  .jobj (optField "parks" (p.parks.map fun l => .jarr (l.map Park.toJVal)))

/-- A `shopping` value as a JSON value. -/
def ShopsVal.toJVal : ShopsVal → JVal
  | .seq l => .jarr (l.map Shop.toJVal)
  | .nonseq v => v

/-- The `shopping` mapping as a JSON value. -/
def shoppingToJVal (m : List (String × ShopsVal)) : JVal :=
  .jobj (m.map fun e => (e.1, e.2.toJVal))

/-- The amenities document viewed as the Python dict `self.amenities`:
the three structured keys materialize under their fixed names, every
other key is looked up among the extra amenity-type entries. -/
def Amenities.lookup (am : Amenities) (k : String) : Option JVal :=
  if k == "schools" then am.schools.map Schools.toJVal
  else if k == "parks_and_recreation" then am.parks_and_recreation.map ParksRec.toJVal
  else if k == "shopping" then am.shopping.map shoppingToJVal
  else (am.extra.find? fun e => e.1 == k).map fun e => e.2

/-- `get_amenities_by_type`: `self.amenities.get(amenity_type, {})`, the
default being the empty mapping. -/
def get_amenities_by_type (st : Store) (amenity_type : String) : JVal :=
  (st.amenities.lookup amenity_type).getD (.jobj [])

/-! ### Lemmas about the filter predicate -/

/-- An early `return False` branch, as a conjunction with the rest of the
chain. -/
lemma if_return_false (c e : Bool) : (if c then false else e) = (!c && e) := by
  cases c <;> simp

/-- The disjunction of the eleven failing tests of `_matches_filter`, in
source order. -/
def checkFailsAny (prop : Property) (filters : PropertyFilter) : Bool :=
  minCheckFails filters.min_price prop.price ||
  maxCheckFails filters.max_price prop.price ||
  minCheckFails filters.min_bedrooms prop.bedrooms ||
  maxCheckFails filters.max_bedrooms prop.bedrooms ||
  minCheckFails filters.min_bathrooms prop.bathrooms ||
  maxCheckFails filters.max_bathrooms prop.bathrooms ||
  areasCheckFails filters prop ||
  typesCheckFails filters prop ||
  minCheckFails filters.min_sqft prop.square_feet ||
  maxCheckFails filters.max_sqft prop.square_feet ||
  featuresCheckFails filters prop

/-- The early-return chain matches exactly when no single test fails. -/
lemma matches_filter_eq (prop : Property) (filters : PropertyFilter) :
    matches_filter prop filters = !(checkFailsAny prop filters) := by
  simp only [matches_filter, checkFailsAny, if_return_false, Bool.not_or,
    Bool.and_assoc, Bool.and_true]

/-- One failing test forces the property out of the result. -/
lemma matches_false_of_any (prop : Property) (filters : PropertyFilter)
    (h : checkFailsAny prop filters = true) :
    matches_filter prop filters = false := by
  rw [matches_filter_eq, h]
  rfl

/-- A missing numeric field fails a max bound exactly when the bound is
set and nonzero (a zero bound is falsy and skipped). -/
lemma maxCheckFails_of_missing {m : ℚ} (hm : m ≠ 0) :
    maxCheckFails (some m) none = true := by
  simp [maxCheckFails, truthyNum, getNum, PyNum.gtb, PyNum.ltb, hm]

/-- A missing numeric field fails a min bound exactly when the bound is
set and positive (the field defaults to 0 for this test). -/
lemma minCheckFails_of_missing {m : ℚ} (hm : 0 < m) :
    minCheckFails (some m) none = true := by
  simp [minCheckFails, truthyNum, getNum, PyNum.ltb, hm, hm.ne']

/-- With the all-unset filter every test is skipped. -/
lemma matches_filter_empty (prop : Property) :
    matches_filter prop {} = true := rfl

/-! ### Claims C2 through C5 -/

/-- C2, counterexample. The claim says a property with no `price` fails
any finite `max_price` and any `min_price` other than 0; but the code
skips a falsy `max_price = 0` (so the empty property matches), and a
negative `min_price` is satisfied by the 0 default (so the empty property
matches as well). -/
theorem C2_claim_counterexample :
    matches_filter {} { max_price := some 0 } = true ∧
    matches_filter {} { min_price := some (-1) } = true := by
  constructor <;> rfl

/-- C2, amended: a property record missing a numeric field fails the
corresponding max bound whenever that bound is set and nonzero, and fails
the corresponding min bound whenever that bound is set and positive; the
same holds for price, bedrooms, bathrooms and square feet. -/
theorem C2_missing_field_bound_asymmetry (p : Property) (f : PropertyFilter) :
    (p.price = none → (∃ m, f.max_price = some m ∧ m ≠ 0) →
      matches_filter p f = false) ∧
    (p.price = none → (∃ m, f.min_price = some m ∧ 0 < m) →
      matches_filter p f = false) ∧
    (p.bedrooms = none → (∃ m, f.max_bedrooms = some m ∧ m ≠ 0) →
      matches_filter p f = false) ∧
    (p.bedrooms = none → (∃ m, f.min_bedrooms = some m ∧ 0 < m) →
      matches_filter p f = false) ∧
    (p.bathrooms = none → (∃ m, f.max_bathrooms = some m ∧ m ≠ 0) →
      matches_filter p f = false) ∧
    (p.bathrooms = none → (∃ m, f.min_bathrooms = some m ∧ 0 < m) →
      matches_filter p f = false) ∧
    (p.square_feet = none → (∃ m, f.max_sqft = some m ∧ m ≠ 0) →
      matches_filter p f = false) ∧
    (p.square_feet = none → (∃ m, f.min_sqft = some m ∧ 0 < m) →
      matches_filter p f = false) := by
  refine ⟨?_, ?_, ?_, ?_, ?_, ?_, ?_, ?_⟩ <;>
    · rintro hp ⟨m, hf, hm⟩
      apply matches_false_of_any
      unfold checkFailsAny
      first
      | rw [hp, hf, maxCheckFails_of_missing hm]
      | rw [hp, hf, minCheckFails_of_missing hm]
      simp

/-- C2, witness for the amended statement at concrete inputs. -/
theorem C2_missing_field_bound_asymmetry_witness :
    matches_filter {} { max_price := some 250000 } = false ∧
    matches_filter {} { min_price := some 100000 } = false ∧
    matches_filter {} { min_bedrooms := some 3 } = false :=
  ⟨(C2_missing_field_bound_asymmetry {} { max_price := some 250000 }).1
      rfl ⟨250000, rfl, by norm_num⟩,
   (C2_missing_field_bound_asymmetry {} { min_price := some 100000 }).2.1
      rfl ⟨100000, rfl, by norm_num⟩,
   (C2_missing_field_bound_asymmetry {} { min_bedrooms := some 3 }).2.2.2.1
      rfl ⟨3, rfl, by norm_num⟩⟩

/-- C3: setting any min field to 0 filters exactly as leaving it unset,
because both values are falsy and the test is skipped. -/
theorem C3_min_zero_is_unset (st : Store) (f : PropertyFilter) :
    filter_properties st { f with min_price := some 0 } =
      filter_properties st { f with min_price := none } ∧
    filter_properties st { f with min_bedrooms := some 0 } =
      filter_properties st { f with min_bedrooms := none } ∧
    filter_properties st { f with min_bathrooms := some 0 } =
      filter_properties st { f with min_bathrooms := none } ∧
    filter_properties st { f with min_sqft := some 0 } =
      filter_properties st { f with min_sqft := none } := by
  refine ⟨?_, ?_, ?_, ?_⟩ <;>
    · unfold filter_properties
      refine List.filter_congr ?_
      intro p _
      rw [matches_filter_eq, matches_filter_eq]
      unfold checkFailsAny
      simp [minCheckFails, truthyNum, areasCheckFails, typesCheckFails,
        featuresCheckFails]

/-- C4: the all-unset filter keeps every property, so `filter_properties`
returns exactly `get_all_properties` in order. -/
theorem C4_empty_filter_is_identity (st : Store) :
    filter_properties st {} = get_all_properties st := by
  unfold filter_properties
  exact List.filter_eq_self.mpr fun p _ => matches_filter_empty p

/-- C5: the filtered list is an order-preserving subsequence of the full
property list. -/
theorem C5_filter_is_sublist (st : Store) (f : PropertyFilter) :
    (filter_properties st f).Sublist (get_all_properties st) :=
  List.filter_sublist _

/-! ### Claim C6 -/

/-- C6: `get_schools_by_area` returns the four school buckets of the
amenities `schools` mapping concatenated in their fixed order, and its
result is the same for any two area arguments: the geographic filtering
is a no-op. -/
theorem C6_schools_concat_area_independent (st : Store) (a b : Option String) :
    get_schools_by_area st a =
      (st.amenities.schools.getD {}).elementary_schools.getD [] ++
      (st.amenities.schools.getD {}).middle_schools.getD [] ++
      (st.amenities.schools.getD {}).high_schools.getD [] ++
      (st.amenities.schools.getD {}).private_schools.getD [] ∧
    get_schools_by_area st a = get_schools_by_area st b := by
  constructor
  · rfl
  · rfl

/-! ### Claim C7 -/

/-- C7: when the selected sales list (by area when the argument is
truthy, else all recent sales) is empty, `calculate_market_trends`
returns the empty result before any average is computed, so the division
by the sales count is unreachable. -/
theorem C7_empty_sales_empty_result (st : Store) (area : Option String)
    (h : selected_sales st area = .ok []) :
    calculate_market_trends st area = .ok none := by
  unfold calculate_market_trends
  rw [h]
  rfl

/-- Store for the C7 witness: no recorded sales (but a non-trivial
property document, which the trends computation never reads). -/
def stC7 : Store :=
  { active_listings := [{ id := some "p1", price := some 950000 }] }

/-- C7, witness: a truthy area argument with no sales at all selects the
empty list and yields the empty result. -/
theorem C7_empty_sales_empty_result_witness :
    selected_sales stC7 (some "Uptown") = .ok [] ∧
    calculate_market_trends stC7 (some "Uptown") = .ok none :=
  ⟨by rfl, C7_empty_sales_empty_result stC7 (some "Uptown") (by rfl)⟩

/-! ### Claim C8 -/

/-- C8: a missing client, or a client whose `type` is absent or not
`"Buyer"`, makes `match_clients_to_properties` return the empty list,
whatever the preferences. -/
theorem C8_non_buyer_returns_empty (st : Store) (client_id : String)
    (h : get_client_by_id st client_id = none ∨
      ∃ c, get_client_by_id st client_id = some c ∧ c.type ≠ some "Buyer") :
    match_clients_to_properties st client_id = [] := by
  unfold match_clients_to_properties
  rcases h with h | ⟨c, hc, ht⟩
  · rw [h]
  · rw [hc]
    simp [ht]

/-- Client for the C8 witness: a seller with full buyer-style
preferences that would match the listing below. -/
def clientC8 : Client :=
  { id := some "c1",
    type := some "Seller",
    preferences := some {
      budget_range := some { min := some 100000, max := some 500000 },
      desired_areas := some ["Downtown"],
      property_type := some "Condo" } }

/-- Store for the C8 witness: the seller client plus a listing matching
the preferences. -/
def stC8 : Store :=
  { active_listings := [{
      id := some "p1", price := some 200000,
      area := some "Downtown", property_type := some "Condo" }],
    clients := [clientC8] }

/-- C8, witness: the seller gets no matches although a listing satisfies
the preferences. -/
theorem C8_non_buyer_returns_empty_witness :
    match_clients_to_properties stC8 "c1" = [] :=
  C8_non_buyer_returns_empty stC8 "c1" (Or.inr ⟨clientC8, by rfl, by decide⟩)

/-! ### Claim C9 -/

/-- The property lookup loop is first-match search. -/
lemma propLoop_eq_find (pid : String) (l : List Property) :
    propLoop pid l = l.find? fun p => p.id == some pid := by
  induction l with
  | nil => rfl
  | cons p rest ih =>
      simp only [propLoop, List.find?]
      cases h : (p.id == some pid) <;> simp [h, ih]

/-- The agent lookup loop is first-match search. -/
lemma agentLoop_eq_find (aid : Option String) (l : List Agent) :
    agentLoop aid l = l.find? fun a => a.id == aid := by
  induction l with
  | nil => rfl
  | cons a rest ih =>
      simp only [agentLoop, List.find?]
      cases h : (a.id == aid) <;> simp [h, ih]

/-- The client lookup loop is first-match search. -/
lemma clientLoop_eq_find (cid : String) (l : List Client) :
    clientLoop cid l = l.find? fun c => c.id == some cid := by
  induction l with
  | nil => rfl
  | cons c rest ih =>
      simp only [clientLoop, List.find?]
      cases h : (c.id == some cid) <;> simp [h, ih]

/-- The area lookup loop, on a string argument, is first-match search on
the case-insensitive name test. -/
lemma areaLoop_eq_find (q : String) (l : List Area) :
    areaLoop (some q) l =
      .ok (l.find? fun a => (a.name.getD "").toLower == q.toLower) := by
  induction l with
  | nil => rfl
  | cons a rest ih =>
      simp only [areaLoop, List.find?]
      cases h : ((a.name.getD "").toLower == q.toLower) <;> simp [h, ih]

/-- C9: each id (or name) lookup is exactly first-match search over its
document sequence: a unique match is returned, an absent id gives the
not-found value, and among duplicates the first in document order
wins. -/
theorem C9_lookups_are_first_match :
    (∀ (st : Store) (pid : String),
      get_property_by_id st pid =
        (get_all_properties st).find? fun p => p.id == some pid) ∧
    (∀ (st : Store) (aid : Option String),
      get_agent_by_id st aid =
        (get_all_agents st).find? fun a => a.id == aid) ∧
    (∀ (st : Store) (cid : String),
      get_client_by_id st cid =
        (get_all_clients st).find? fun c => c.id == some cid) ∧
    (∀ (st : Store) (q : String),
      get_area_info st (some q) =
        .ok ((get_all_areas st).find? fun a =>
          (a.name.getD "").toLower == q.toLower)) :=
  ⟨fun _ pid => propLoop_eq_find pid _,
   fun _ aid => agentLoop_eq_find aid _,
   fun _ cid => clientLoop_eq_find cid _,
   fun _ q => areaLoop_eq_find q _⟩

/-! ### Claim C10 -/

/-- C10: an amenity type absent from the amenities document yields the
empty mapping `{}`, while a key present with a sequence value yields that
sequence; the two result shapes differ. -/
theorem C10_amenities_by_type_shapes :
    (∀ (st : Store) (t : String), st.amenities.lookup t = none →
      get_amenities_by_type st t = JVal.jobj []) ∧
    (∀ (st : Store) (t : String) (l : List JVal),
      st.amenities.lookup t = some (JVal.jarr l) →
      get_amenities_by_type st t = JVal.jarr l) ∧
    (∀ l : List JVal, JVal.jobj [] ≠ JVal.jarr l) := by
  refine ⟨?_, ?_, ?_⟩
  · intro st t h
    unfold get_amenities_by_type
    rw [h]
    rfl
  · intro st t l h
    unfold get_amenities_by_type
    rw [h]
    rfl
  · intro l h
    cases h

/-- Store for the C10 witness: one raw amenity-type entry holding a
sequence. -/
def stC10 : Store :=
  { amenities := { extra :=
      [("healthcare", JVal.jarr [JVal.jobj [("name", JVal.jstr "City Hospital")]])] } }

/-- C10, witness: a missing type gives the empty mapping, a present type
gives its sequence. -/
theorem C10_amenities_by_type_shapes_witness :
    get_amenities_by_type stC10 "transit" = JVal.jobj [] ∧
    get_amenities_by_type stC10 "healthcare" =
      JVal.jarr [JVal.jobj [("name", JVal.jstr "City Hospital")]] :=
  ⟨C10_amenities_by_type_shapes.1 stC10 "transit" rfl,
   C10_amenities_by_type_shapes.2.1 stC10 "healthcare" _ rfl⟩

/-! ### Claim C1 -/

/-- Store for C1: one property without an `area` field and one area
record, the smallest well-typed store exhibiting the failure. -/
def stC1 : Store :=
  { active_listings := [{ id := some "p1" }]
    areas := [{ name := some "Downtown" }] }

/-- C1: the claim (and the error-handling section of the spec) says every
query completes on well-typed records with missing fields; but
`get_property_insights` on a property lacking `area` passes `None` into
`get_area_info`, whose loop evaluates `area_name.lower()` on the first
area record and raises `AttributeError`. The code contradicts the
documented totality contract, so this is a code bug, witnessed here by
evaluation at the failing input. -/
theorem C1_insights_raise_on_missing_area :
    get_property_insights stC1 "p1" = .error .attributeError := by
  rfl

end RealEstate
